import Mathlib

/-!
Verification of the plant-monitoring firmware
(`src/plant_monitoring_system`): a shallow embedding of the coordinator,
statistics, threshold/alert, indicator and sampler-thread logic of
`main.c`, `sensors_thread.c` and `gps_thread.c`, together with theorems
about the behaviour those sources implement.

Conventions: C `float` values carried through the statistics and limit
logic are embedded as `ℚ`; the scaled-integer atomics of
`struct system_measurement` are embedded as `ℤ`; flag words are `ℕ`
with bitwise operations; fallible driver reads are `Option` inputs
(the drivers themselves are external collaborators).
-/

namespace PlantMonitor

/-- Operating modes, `system_mode_t` of `main.h`. -/
inductive system_mode_t
  | TEST_MODE
  | NORMAL_MODE
  | ADVANCED_MODE
deriving DecidableEq

open system_mode_t

/-- Measurement interval in TEST mode, ms (`TEST_MODE_CADENCE`, main.h). -/
def TEST_MODE_CADENCE : ℕ := 2000

/-- Measurement interval in NORMAL mode, ms (`NORMAL_MODE_CADENCE`, main.h). -/
def NORMAL_MODE_CADENCE : ℕ := 30000

/-- Measurement limits of main.c (`TEMP_MIN` .. `ACCEL_MAX`). -/
def TEMP_MIN : ℚ := -10

/-- Maximum temperature in °C (main.c). -/
def TEMP_MAX : ℚ := 50

/-- Minimum humidity percentage (main.c). -/
def HUM_MIN : ℚ := 25

/-- Maximum humidity percentage (main.c). -/
def HUM_MAX : ℚ := 75

/-- Minimum brightness percentage (main.c). -/
def LIGHT_MIN : ℚ := 0

/-- Maximum brightness percentage (main.c). -/
def LIGHT_MAX : ℚ := 100

/-- Minimum soil moisture percentage (main.c). -/
def MOISTURE_MIN : ℚ := 0

/-- Maximum soil moisture percentage (main.c). -/
def MOISTURE_MAX : ℚ := 100

/-- Minimum raw color channel value (main.c). -/
def COLOR_MIN : ℚ := 0

/-- Maximum raw color channel value (main.c). -/
def COLOR_MAX : ℚ := 65535

/-- Minimum acceleration in g (main.c); used as `ACCEL_MIN * 9.8f`. -/
def ACCEL_MIN : ℚ := -2

/-- Maximum acceleration in g (main.c); used as `ACCEL_MAX * 9.8f`. -/
def ACCEL_MAX : ℚ := 2

/-- Alert flag bits of main.c (`FLAG_TEMP` = 1U<<0 … `FLAG_ACCEL` = 1U<<5). -/
def FLAG_TEMP : ℕ := 1 <<< 0

/-- `FLAG_HUM` (main.c). -/
def FLAG_HUM : ℕ := 1 <<< 1

/-- `FLAG_LIGHT` (main.c). -/
def FLAG_LIGHT : ℕ := 1 <<< 2

/-- `FLAG_MOISTURE` (main.c). -/
def FLAG_MOISTURE : ℕ := 1 <<< 3

/-- `FLAG_COLOR` (main.c). -/
def FLAG_COLOR : ℕ := 1 <<< 4

/-- `FLAG_ACCEL` (main.c). -/
def FLAG_ACCEL : ℕ := 1 <<< 5

/-- The fields of `struct main_measurement` (main.c) that the statistics,
threshold and color logic read and write.  The presentation-only fields
(GPS coordinates, time-of-day split, hemisphere characters, `dom_color`)
are not touched by the functions embedded here and are omitted. -/
structure main_measurement where
  light : ℚ
  moisture : ℚ
  x_axis : ℚ
  y_axis : ℚ
  z_axis : ℚ
  hum : ℚ
  temp : ℚ
  c : ℚ
  r : ℚ
  g : ℚ
  b : ℚ
deriving DecidableEq

/-- `struct stats_measurements` (main.c). -/
structure stats_measurements where
  temp_mean : ℚ
  temp_max : ℚ
  temp_min : ℚ
  hum_mean : ℚ
  hum_max : ℚ
  hum_min : ℚ
  light_mean : ℚ
  light_max : ℚ
  light_min : ℚ
  moisture_mean : ℚ
  moisture_max : ℚ
  moisture_min : ℚ
  x_axis_max : ℚ
  x_axis_min : ℚ
  y_axis_max : ℚ
  y_axis_min : ℚ
  z_axis_max : ℚ
  z_axis_min : ℚ
  red_count : ℕ
  green_count : ℕ
  blue_count : ℕ
  count : ℕ
deriving DecidableEq

/-- `stats_data = {0}` (main.c): the zero-initialized statistics record. -/
def stats_data_zero : stats_measurements where
  temp_mean := 0
  temp_max := 0
  temp_min := 0
  hum_mean := 0
  hum_max := 0
  hum_min := 0
  light_mean := 0
  light_max := 0
  light_min := 0
  moisture_mean := 0
  moisture_max := 0
  moisture_min := 0
  x_axis_max := 0
  x_axis_min := 0
  y_axis_max := 0
  y_axis_min := 0
  z_axis_max := 0
  z_axis_min := 0
  red_count := 0
  green_count := 0
  blue_count := 0
  count := 0

/-- `mean_calculation` (main.c lines 509-522): at count 1 the means are
assigned directly, afterwards `mean = ((mean * (count - 1)) + x) / count`. -/
def mean_calculation (d : main_measurement) (s : stats_measurements) :
    stats_measurements :=
  if s.count = 1 then
    { s with temp_mean := d.temp, hum_mean := d.hum,
             light_mean := d.light, moisture_mean := d.moisture }
  else
    { s with
      temp_mean := ((s.temp_mean * ((s.count : ℚ) - 1)) + d.temp) / (s.count : ℚ),
      hum_mean := ((s.hum_mean * ((s.count : ℚ) - 1)) + d.hum) / (s.count : ℚ),
      light_mean := ((s.light_mean * ((s.count : ℚ) - 1)) + d.light) / (s.count : ℚ),
      moisture_mean := ((s.moisture_mean * ((s.count : ℚ) - 1)) + d.moisture) / (s.count : ℚ) }

/-- `max_min_calculation` (main.c lines 529-568): at count 1 every max and
min is initialized to the sample itself, afterwards updated by comparison. -/
def max_min_calculation (d : main_measurement) (s : stats_measurements) :
    stats_measurements :=
  if s.count = 1 then
    { s with
      temp_max := d.temp, temp_min := d.temp,
      hum_max := d.hum, hum_min := d.hum,
      light_max := d.light, light_min := d.light,
      moisture_max := d.moisture, moisture_min := d.moisture,
      x_axis_max := d.x_axis, x_axis_min := d.x_axis,
      y_axis_max := d.y_axis, y_axis_min := d.y_axis,
      z_axis_max := d.z_axis, z_axis_min := d.z_axis }
  else
    { s with
      temp_max := if d.temp > s.temp_max then d.temp else s.temp_max,
      temp_min := if d.temp < s.temp_min then d.temp else s.temp_min,
      hum_max := if d.hum > s.hum_max then d.hum else s.hum_max,
      hum_min := if d.hum < s.hum_min then d.hum else s.hum_min,
      light_max := if d.light > s.light_max then d.light else s.light_max,
      light_min := if d.light < s.light_min then d.light else s.light_min,
      moisture_max := if d.moisture > s.moisture_max then d.moisture else s.moisture_max,
      moisture_min := if d.moisture < s.moisture_min then d.moisture else s.moisture_min,
      x_axis_max := if d.x_axis > s.x_axis_max then d.x_axis else s.x_axis_max,
      x_axis_min := if d.x_axis < s.x_axis_min then d.x_axis else s.x_axis_min,
      y_axis_max := if d.y_axis > s.y_axis_max then d.y_axis else s.y_axis_max,
      y_axis_min := if d.y_axis < s.y_axis_min then d.y_axis else s.y_axis_min,
      z_axis_max := if d.z_axis > s.z_axis_max then d.z_axis else s.z_axis_max,
      z_axis_min := if d.z_axis < s.z_axis_min then d.z_axis else s.z_axis_min }

/-- `dominant_color_calculation` (main.c lines 575-584): strict greater-than
comparisons; ties increment no bucket. -/
def dominant_color_calculation (d : main_measurement) (s : stats_measurements) :
    stats_measurements :=
  if d.r > d.g ∧ d.r > d.b then
    { s with red_count := s.red_count + 1 }
  else if d.g > d.r ∧ d.g > d.b then
    { s with green_count := s.green_count + 1 }
  else if d.b > d.r ∧ d.b > d.g then
    { s with blue_count := s.blue_count + 1 }
  else
    s

/-- `stats_management` (main.c lines 591-600): increment count, then mean,
max/min and dominant-color updates, in that order. -/
def stats_management (d : main_measurement) (s : stats_measurements) :
    stats_measurements :=
  dominant_color_calculation d
    (max_min_calculation d
      (mean_calculation d { s with count := s.count + 1 }))

/-- Folding `stats_management` over a list of NORMAL-mode cycle inputs,
starting from the zero-initialized `stats_data`. -/
def run_stats (vs : List main_measurement) : stats_measurements :=
  vs.foldl (fun s d => stats_management d s) stats_data_zero

/-- `check_limit` (main.c lines 615-624): clamp `val` to `[mn, mx]`, setting
`flag_bit` in `flags` when the incoming value was out of range. -/
def check_limit (val mn mx : ℚ) (flags flag_bit : ℕ) : ℚ × ℕ :=
  if val < mn then (mn, flags ||| flag_bit)
  else if val > mx then (mx, flags ||| flag_bit)
  else (val, flags)

/-- `check_limits` (main.c lines 629-648): reset the flag word to zero, then
run `check_limit` over every monitored field in source order, the four
color channels sharing `FLAG_COLOR` and the three axes sharing
`FLAG_ACCEL`.  The first argument is the caller's incoming flag word,
which the source overwrites with 0 before any check (`*flags = 0U`).
The returned word is also what the source publishes to
`main_data.rgb_flags` for the indicator. -/
def check_limits (flags0 : ℕ) (m : main_measurement) : main_measurement × ℕ :=
  let flags : ℕ := 0
  let p1 := check_limit m.temp TEMP_MIN TEMP_MAX flags FLAG_TEMP
  let p2 := check_limit m.hum HUM_MIN HUM_MAX p1.2 FLAG_HUM
  let p3 := check_limit m.light LIGHT_MIN LIGHT_MAX p2.2 FLAG_LIGHT
  let p4 := check_limit m.moisture MOISTURE_MIN MOISTURE_MAX p3.2 FLAG_MOISTURE
  let p5 := check_limit m.c COLOR_MIN COLOR_MAX p4.2 FLAG_COLOR
  let p6 := check_limit m.r COLOR_MIN COLOR_MAX p5.2 FLAG_COLOR
  let p7 := check_limit m.g COLOR_MIN COLOR_MAX p6.2 FLAG_COLOR
  let p8 := check_limit m.b COLOR_MIN COLOR_MAX p7.2 FLAG_COLOR
  let p9 := check_limit m.x_axis (ACCEL_MIN * (98/10)) (ACCEL_MAX * (98/10)) p8.2 FLAG_ACCEL
  let p10 := check_limit m.y_axis (ACCEL_MIN * (98/10)) (ACCEL_MAX * (98/10)) p9.2 FLAG_ACCEL
  let p11 := check_limit m.z_axis (ACCEL_MIN * (98/10)) (ACCEL_MAX * (98/10)) p10.2 FLAG_ACCEL
  ({ m with temp := p1.1, hum := p2.1, light := p3.1, moisture := p4.1,
            c := p5.1, r := p6.1, g := p7.1, b := p8.1,
            x_axis := p9.1, y_axis := p10.1, z_axis := p11.1 },
   p11.2)

/-- What the RGB indicator renders; `rgb_red` … `rgb_yellow` and
`rgb_led_off` of the LED driver, abstracted to the color shown. -/
inductive rgb_output
  | off
  | red
  | blue
  | green
  | cyan
  | white
  | yellow
deriving DecidableEq

/-- The `switch (color)` of `rgb_timer_handler` (main.c lines 417-425):
color code to rendered color. -/
def render_color : ℕ → rgb_output
  | 0 => .red
  | 1 => .blue
  | 2 => .green
  | 3 => .cyan
  | 4 => .white
  | 5 => .yellow
  | _ => .off

/-- The ordered `colors[]` array built by `rgb_timer_handler`
(main.c lines 401-406): flagged families in the fixed order
TEMP, HUM, LIGHT, MOISTURE, COLOR, ACCEL. -/
def rgb_colors_list (flags : ℕ) : List ℕ :=
  (if flags &&& FLAG_TEMP ≠ 0 then [0] else []) ++
  (if flags &&& FLAG_HUM ≠ 0 then [1] else []) ++
  (if flags &&& FLAG_LIGHT ≠ 0 then [2] else []) ++
  (if flags &&& FLAG_MOISTURE ≠ 0 then [3] else []) ++
  (if flags &&& FLAG_COLOR ≠ 0 then [4] else []) ++
  (if flags &&& FLAG_ACCEL ≠ 0 then [5] else [])

/-- `rgb_timer_handler` (main.c lines 393-426) as a function of the flag
word it reads from `main_data.rgb_flags` and of the static `color_index`
(a `uint8_t`, hence the mod-256 increment).  Returns the rendered output
and the new `color_index`. -/
def rgb_timer_handler (flags : ℕ) (color_index : ℕ) : rgb_output × ℕ :=
  let colors := rgb_colors_list flags
  if h : colors.length = 0 then (.off, 0)
  else
    (render_color (colors.get ⟨color_index % colors.length,
      Nat.mod_lt _ (Nat.pos_of_ne_zero h)⟩),
     (color_index + 1) % 256)

/-- `n+1` successive expirations of the RGB timer under a constant flag
word, starting from `color_index = 0`: result of the `n`-th tick. -/
def rgb_ticks (flags : ℕ) : ℕ → rgb_output × ℕ
  | 0 => rgb_timer_handler flags 0
  | n + 1 => rgb_timer_handler flags (rgb_ticks flags n).2

/-- Indicator-side state: whether `rgb_timer` is running, the static
`color_index` of `rgb_timer_handler`, and what the RGB LED shows. -/
structure indicator_state where
  rgb_timer_running : Bool
  color_index : ℕ
  output : rgb_output
deriving DecidableEq

/-- One expiration of `rgb_timer` acting on the indicator state. -/
def indicator_tick (flags : ℕ) (s : indicator_state) : indicator_state :=
  let p := rgb_timer_handler flags s.color_index
  { s with output := p.1, color_index := p.2 }

/-- The `previous_mode != TEST_MODE` entry actions of the main loop's
TEST_MODE branch that touch the indicator (main.c lines 800-809):
`k_timer_stop(&rgb_timer); rgb_led_off(&rgb_leds)`.  The static
`color_index` of `rgb_timer_handler` is not touched. -/
def test_mode_entry (s : indicator_state) : indicator_state :=
  { s with rgb_timer_running := false, output := .off }

/-- The `previous_mode != ADVANCED_MODE` entry actions of the main loop's
ADVANCED_MODE branch that touch the indicator (main.c lines 865-875):
`k_timer_stop(&rgb_timer); rgb_led_off(&rgb_leds)`.  The static
`color_index` of `rgb_timer_handler` is not touched. -/
def advanced_mode_entry (s : indicator_state) : indicator_state :=
  { s with rgb_timer_running := false, output := .off }

/-- The `previous_mode != NORMAL_MODE` entry actions of the NORMAL_MODE
branch that touch the indicator (main.c lines 840-845):
`k_timer_start(&rgb_timer, …)`.  No reset of `color_index`. -/
def normal_mode_entry (s : indicator_state) : indicator_state :=
  { s with rgb_timer_running := true }

/-- `struct system_measurement` (main.h): the shared snapshot of scaled
integer atomics.  Non-GPS fields are owned by the sensors thread, GPS
fields by the GPS thread. -/
structure system_measurement where
  brightness : ℤ
  moisture : ℤ
  accel_x_g : ℤ
  accel_y_g : ℤ
  accel_z_g : ℤ
  temp : ℤ
  hum : ℤ
  red : ℤ
  green : ℤ
  blue : ℤ
  clear : ℤ
  gps_lat : ℤ
  gps_lon : ℤ
  gps_alt : ℤ
  gps_sats : ℤ
  gps_time : ℤ
deriving DecidableEq

/-- The C cast `(int32_t)q` of a float value, embedded on `ℚ`:
integer quotient of numerator by denominator (truncation). -/
def c_int_cast (q : ℚ) : ℤ :=
  q.num / (q.den : ℤ)

/-- Per-cycle driver results consumed by one pass of the sensors thread's
sampling branch; `none` is a failed read (device error or bad checksum),
matching the `!= 0` return paths of the driver collaborators. -/
structure sensor_inputs where
  pt_mv : Option ℤ
  sm_mv : Option ℤ
  accel_xyz : Option (ℚ × ℚ × ℚ)
  humidity : Option ℚ
  temp_raw : Option ℕ
  color : Option (ℕ × ℕ × ℕ × ℕ)
deriving DecidableEq

/-- `read_adc_percentage` (sensors_thread.c lines 129-138): on success
store `mv * 1000 / vref_mv`, on failure log only and keep `target`. -/
def read_adc_percentage (vref_mv : ℤ) (mv : Option ℤ) (target : ℤ) : ℤ :=
  match mv with
  | some v => v * 1000 / vref_mv
  | none => target

/-- `read_accelerometer` (sensors_thread.c lines 151-167): on success store
the three converted values ×100, on failure keep all three targets.  The
driver conversion `accel_convert_to_ms2` is a collaborator; its converted
m/s² outputs are the `some` payload. -/
def read_accelerometer (xyz : Option (ℚ × ℚ × ℚ)) (x y z : ℤ) : ℤ × ℤ × ℤ :=
  match xyz with
  | some (xv, yv, zv) =>
    (c_int_cast (xv * 100), c_int_cast (yv * 100), c_int_cast (zv * 100))
  | none => (x, y, z)

/-- `read_temperature_humidity` (sensors_thread.c lines 179-200): humidity
read first; if it fails nothing is stored.  Then the raw temperature word
is fetched over I2C; if that fails the function returns early and nothing
is stored.  Only when both succeed are humidity ×100 and the converted
temperature ×100 stored. -/
def read_temperature_humidity (humidity : Option ℚ) (temp_raw : Option ℕ)
    (temp hum : ℤ) : ℤ × ℤ :=
  match humidity with
  | none => (temp, hum)
  | some h =>
    match temp_raw with
    | none => (temp, hum)
    | some raw =>
      let temperature : ℚ := ((17572 / 100 : ℚ) * (raw : ℚ)) / 65536 - 4685 / 100
      (c_int_cast (temperature * 100), c_int_cast (h * 100))

/-- `read_color_sensor` (sensors_thread.c lines 211-222): on success store
the four raw channels, on failure keep all four targets. -/
def read_color_sensor (cdata : Option (ℕ × ℕ × ℕ × ℕ))
    (red green blue clear : ℤ) : ℤ × ℤ × ℤ × ℤ :=
  match cdata with
  | some (r, g, b, c) => ((r : ℤ), (g : ℤ), (b : ℤ), (c : ℤ))
  | none => (red, green, blue, clear)

/-- The sampling body of `sensors_thread_fn` for TEST/NORMAL modes
(sensors_thread.c lines 261-268): the five reads in source order, each
updating only its own snapshot fields. -/
def sensors_sample (inp : sensor_inputs) (m : system_measurement) :
    system_measurement :=
  let brightness := read_adc_percentage 3300 inp.pt_mv m.brightness
  let moisture := read_adc_percentage 3300 inp.sm_mv m.moisture
  let axyz := read_accelerometer inp.accel_xyz m.accel_x_g m.accel_y_g m.accel_z_g
  let th := read_temperature_humidity inp.humidity inp.temp_raw m.temp m.hum
  let col := read_color_sensor inp.color m.red m.green m.blue m.clear
  { m with
    brightness := brightness, moisture := moisture,
    accel_x_g := axyz.1, accel_y_g := axyz.2.1, accel_z_g := axyz.2.2,
    temp := th.1, hum := th.2,
    red := col.1, green := col.2.1, blue := col.2.2.1, clear := col.2.2.2 }

/-- One iteration of the `switch (current_mode)` of `sensors_thread_fn`
(sensors_thread.c lines 260-279): in TEST/NORMAL it samples and gives
`main_sensors_sem`; in the default (ADVANCED) branch it stops its timer,
gives `main_sensors_sem` and blocks — no snapshot field is written.
The Bool is whether `main_sensors_sem` was given. -/
def sensors_thread_step (mode : system_mode_t) (inp : sensor_inputs)
    (m : system_measurement) : system_measurement × Bool :=
  match mode with
  | TEST_MODE => (sensors_sample inp m, true)
  | NORMAL_MODE => (sensors_sample inp m, true)
  | ADVANCED_MODE => (m, true)

/-- `gps_data_t` as consumed by `read_gps_data`: the fix fields used by
gps_thread.c.  `utc_time` is the NMEA HHMMSS character buffer. -/
structure gps_data_t where
  lat : ℚ
  lon : ℚ
  alt : ℚ
  sats : ℤ
  utc_time : List Char
deriving DecidableEq

/-- `read_gps_data` (gps_thread.c lines 128-154): when `gps_wait_for_gga`
returns a fix within its 2000 ms timeout, scale and store the GPS fields
and the encoded HHMMSS time (or -1 when the time string is short); on
timeout only a log line is printed and every field keeps its value. -/
def read_gps_data (fix : Option gps_data_t) (m : system_measurement) :
    system_measurement :=
  match fix with
  | some d =>
    let base :=
      { m with
        gps_lat := c_int_cast (d.lat * 1000000),
        gps_lon := c_int_cast (d.lon * 1000000),
        gps_alt := c_int_cast (d.alt * 100),
        gps_sats := d.sats }
    if d.utc_time.length ≥ 6 then
      let hh := ((d.utc_time.getD 0 '0').toNat - '0'.toNat) * 10 +
        ((d.utc_time.getD 1 '0').toNat - '0'.toNat)
      let mm := ((d.utc_time.getD 2 '0').toNat - '0'.toNat) * 10 +
        ((d.utc_time.getD 3 '0').toNat - '0'.toNat)
      let ss := ((d.utc_time.getD 4 '0').toNat - '0'.toNat) * 10 +
        ((d.utc_time.getD 5 '0').toNat - '0'.toNat)
      { base with gps_time := (hh : ℤ) * 10000 + (mm : ℤ) * 100 + (ss : ℤ) }
    else
      { base with gps_time := -1 }
  | none => m

/-- One iteration of the `switch (current_mode)` of `gps_thread_fn`
(gps_thread.c lines 192-205): in TEST/NORMAL it reads (with the driver
timeout) and gives `main_gps_sem`; in the default (ADVANCED) branch it
stops its timer, gives `main_gps_sem` and blocks — no field is written.
The Bool is whether `main_gps_sem` was given. -/
def gps_thread_step (mode : system_mode_t) (fix : Option gps_data_t)
    (m : system_measurement) : system_measurement × Bool :=
  match mode with
  | TEST_MODE => (read_gps_data fix m, true)
  | NORMAL_MODE => (read_gps_data fix m, true)
  | ADVANCED_MODE => (m, true)

/-- The mode cycle of `button_work_handler` (main.c lines 332-350):
TEST → NORMAL → ADVANCED → TEST. -/
def next_mode : system_mode_t → system_mode_t
  | TEST_MODE => NORMAL_MODE
  | NORMAL_MODE => ADVANCED_MODE
  | ADVANCED_MODE => TEST_MODE

/-- The two mode words of the source.  `main_mode` is `main_data.mode`
(main.c), the only mode storage `button_work_handler` writes.
`ctx_mode` is the word the sampler threads poll as
`atomic_get(&ctx->mode)` (sensors_thread.c line 252, gps_thread.c
line 184); `struct system_context` (main.h) declares no such member and
no statement of main.c ever stores a mode into the shared context, so no
transition of the embedded coordinator changes it. -/
structure mode_sync_state where
  main_mode : system_mode_t
  ctx_mode : system_mode_t
deriving DecidableEq

/-- `button_work_handler` (main.c lines 332-350): advance
`main_data.mode` to the next mode (and give `main_sem`); nothing else is
written — in particular no store to any sampler-visible context word. -/
def button_work_handler (s : mode_sync_state) : mode_sync_state :=
  { s with main_mode := next_mode s.main_mode }

/-- `update_sensors_timer` (sensors_thread.c lines 103-117), equally
`update_gps_timer` (gps_thread.c lines 101-115): the sampling period the
sampler arms for a given mode (`none` = timer left stopped). -/
def update_sensors_timer : system_mode_t → Option ℕ
  | TEST_MODE => some TEST_MODE_CADENCE
  | NORMAL_MODE => some NORMAL_MODE_CADENCE
  | ADVANCED_MODE => none

/-- The sampling period a sampler thread actually arms after polling its
mode word: `update_sensors_timer` applied to the `ctx->mode` it reads. -/
def sampler_armed_period (s : mode_sync_state) : Option ℕ :=
  update_sensors_timer s.ctx_mode

/-- The normalized-color computation of the ADVANCED_MODE branch
(main.c lines 887-894): division by the clear channel is guarded;
when `c <= 0` all three normalized values are 0. -/
def normalized_colors (c r g b : ℚ) : ℚ × ℚ × ℚ :=
  if c ≤ 0 then (0, 0, 0)
  else ((r / c) * 100, (g / c) * 100, (b / c) * 100)

/-- The measurement/consumption sequence of the NORMAL_MODE branch
(main.c lines 847-861): after `get_measurements`, first `check_limits`
clamps `main_data` in place and computes the flag word, then
`stats_management` runs on the clamped record. -/
def normal_mode_cycle (m : main_measurement) (s : stats_measurements) :
    main_measurement × ℕ × stats_measurements :=
  let p := check_limits 0 m
  (p.1, p.2, stats_management p.1 s)

/-- A concrete snapshot with every field 1, used to evaluate witnesses. -/
def all_ones_measurement : system_measurement where
  brightness := 1
  moisture := 1
  accel_x_g := 1
  accel_y_g := 1
  accel_z_g := 1
  temp := 1
  hum := 1
  red := 1
  green := 1
  blue := 1
  clear := 1
  gps_lat := 1
  gps_lon := 1
  gps_alt := 1
  gps_sats := 1
  gps_time := 1

/-- A cycle in which every driver read fails. -/
def none_inputs : sensor_inputs where
  pt_mv := none
  sm_mv := none
  accel_xyz := none
  humidity := none
  temp_raw := none
  color := none

/-- First color read of the dominant-color scenario: R 100, G 50, B 10. -/
def scenario_read_1 : main_measurement where
  light := 50
  moisture := 50
  x_axis := 0
  y_axis := 0
  z_axis := 0
  hum := 50
  temp := 20
  c := 100
  r := 100
  g := 50
  b := 10

/-- Second color read of the scenario: R 10, G 200, B 5. -/
def scenario_read_2 : main_measurement :=
  { scenario_read_1 with r := 10, g := 200, b := 5 }

/-- Third color read of the scenario: R 5, G 5, B 300. -/
def scenario_read_3 : main_measurement :=
  { scenario_read_1 with r := 5, g := 5, b := 300 }

/-! Helper lemmas. -/

/-- The clamped value returned by `check_limit` in closed form. -/
lemma check_limit_fst (v mn mx : ℚ) (f b : ℕ) :
    (check_limit v mn mx f b).1 =
      if v < mn then mn else if v > mx then mx else v := by
  unfold check_limit
  by_cases h1 : v < mn
  · simp [h1]
  · by_cases h2 : v > mx <;> simp [h1, h2]

/-- The flag word returned by `check_limit` in closed form. -/
lemma check_limit_snd (v mn mx : ℚ) (f b : ℕ) :
    (check_limit v mn mx f b).2 =
      (f ||| if v < mn ∨ v > mx then b else 0) := by
  unfold check_limit
  by_cases h1 : v < mn
  · simp [h1]
  · by_cases h2 : v > mx <;> simp [h1, h2]

/-- `check_limit` lands in `[mn, mx]` whenever the bounds are ordered. -/
lemma check_limit_bounds (v mn mx : ℚ) (f b : ℕ) (h : mn ≤ mx) :
    mn ≤ (check_limit v mn mx f b).1 ∧ (check_limit v mn mx f b).1 ≤ mx := by
  rw [check_limit_fst]
  by_cases h1 : v < mn
  · simp [h1, h]
  · by_cases h2 : v > mx
    · simp [h1, h2, h]
    · simp [h1, h2, not_lt.mp h1, not_lt.mp h2]

/-- Test bit of a conditional flag constant. -/
lemma testBit_ite (c : Prop) [Decidable c] (b k : ℕ) :
    (if c then b else 0).testBit k = (decide c && b.testBit k) := by
  by_cases h : c <;> simp [h]

/-- `FLAG_TEMP` as a power of two. -/
lemma FLAG_TEMP_pow : FLAG_TEMP = 2 ^ 0 := by decide

/-- `FLAG_HUM` as a power of two. -/
lemma FLAG_HUM_pow : FLAG_HUM = 2 ^ 1 := by decide

/-- `FLAG_LIGHT` as a power of two. -/
lemma FLAG_LIGHT_pow : FLAG_LIGHT = 2 ^ 2 := by decide

/-- `FLAG_MOISTURE` as a power of two. -/
lemma FLAG_MOISTURE_pow : FLAG_MOISTURE = 2 ^ 3 := by decide

/-- `FLAG_COLOR` as a power of two. -/
lemma FLAG_COLOR_pow : FLAG_COLOR = 2 ^ 4 := by decide

/-- `FLAG_ACCEL` as a power of two. -/
lemma FLAG_ACCEL_pow : FLAG_ACCEL = 2 ^ 5 := by decide

/-! Claim theorems. -/

/-- C1: the claim says a button transition T1→T2 reaches the samplers
through shared, atomically-readable mode storage, so each sampler arms
`cadence(T2)` before its next publish.  The code violates this: after
`button_work_handler` runs on the TEST→NORMAL transition,
`main_data.mode` is NORMAL but the `ctx->mode` word the samplers poll is
unchanged (no member of `struct system_context` is a mode, and main.c
never stores one), so the sampler-armed period is still
`cadence(TEST) = 2000` ms and not `cadence(NORMAL) = 30000` ms. -/
theorem button_mode_never_reaches_samplers :
    (button_work_handler { main_mode := TEST_MODE, ctx_mode := TEST_MODE }).main_mode
        = NORMAL_MODE ∧
    (button_work_handler { main_mode := TEST_MODE, ctx_mode := TEST_MODE }).ctx_mode
        = TEST_MODE ∧
    sampler_armed_period
        (button_work_handler { main_mode := TEST_MODE, ctx_mode := TEST_MODE })
        = some 2000 ∧
    update_sensors_timer
        (button_work_handler { main_mode := TEST_MODE, ctx_mode := TEST_MODE }).main_mode
        = some 30000 ∧
    sampler_armed_period
        (button_work_handler { main_mode := TEST_MODE, ctx_mode := TEST_MODE })
      ≠ update_sensors_timer
        (button_work_handler { main_mode := TEST_MODE, ctx_mode := TEST_MODE }).main_mode := by
  refine ⟨rfl, rfl, rfl, rfl, ?_⟩
  decide

/-- C8: while the mode is ADVANCED the samplers' idle branches signal
"sample ready" and write no snapshot field: both thread steps return the
measurement record unchanged, together with the given semaphore. -/
theorem advanced_mode_freezes_snapshot :
    ∀ (inp : sensor_inputs) (fix : Option gps_data_t) (m : system_measurement),
      sensors_thread_step ADVANCED_MODE inp m = (m, true) ∧
      gps_thread_step ADVANCED_MODE fix m = (m, true) := by
  intro inp fix m
  exact ⟨rfl, rfl⟩

/-- C10: the ADVANCED-mode normalized-color computation is guarded: for a
clear channel ≤ 0 all three normalized values are 0 and no division
happens; the division by the clear channel runs only when it is
positive. -/
theorem normalized_colors_guarded :
    ∀ c r g b : ℚ,
      (c ≤ 0 → normalized_colors c r g b = (0, 0, 0)) ∧
      (0 < c → normalized_colors c r g b =
        ((r / c) * 100, (g / c) * 100, (b / c) * 100)) := by
  intro c r g b
  constructor
  · intro h
    simp [normalized_colors, h]
  · intro h
    simp [normalized_colors, not_le.mpr h]

/-- C10 witness: both guards of `normalized_colors_guarded`, discharged at
clear = 0 and clear = 2. -/
theorem normalized_colors_guarded_witness :
    ((0 : ℚ) ≤ 0 ∧ normalized_colors 0 5 6 7 = (0, 0, 0)) ∧
    ((0 : ℚ) < 2 ∧ normalized_colors 2 5 6 7 =
      (((5 : ℚ) / 2) * 100, ((6 : ℚ) / 2) * 100, ((7 : ℚ) / 2) * 100)) :=
  ⟨⟨le_refl 0, (normalized_colors_guarded 0 5 6 7).1 (le_refl 0)⟩,
   ⟨by norm_num, (normalized_colors_guarded 2 5 6 7).2 (by norm_num)⟩⟩

/-- C6: a failed sensor read leaves the corresponding snapshot fields at
their last values and the cycle still signals "sample ready": the GPS
step on a timeout returns the record unchanged with the semaphore given,
and each failed read of the sensors thread keeps exactly its own fields,
with `main_sensors_sem` given unconditionally. -/
theorem failed_reads_keep_last_values :
    ∀ (inp : sensor_inputs) (m : system_measurement),
      gps_thread_step NORMAL_MODE none m = (m, true) ∧
      gps_thread_step TEST_MODE none m = (m, true) ∧
      (inp.pt_mv = none → (sensors_sample inp m).brightness = m.brightness) ∧
      (inp.sm_mv = none → (sensors_sample inp m).moisture = m.moisture) ∧
      (inp.accel_xyz = none →
        (sensors_sample inp m).accel_x_g = m.accel_x_g ∧
        (sensors_sample inp m).accel_y_g = m.accel_y_g ∧
        (sensors_sample inp m).accel_z_g = m.accel_z_g) ∧
      (inp.humidity = none →
        (sensors_sample inp m).temp = m.temp ∧
        (sensors_sample inp m).hum = m.hum) ∧
      (inp.temp_raw = none →
        (sensors_sample inp m).temp = m.temp ∧
        (sensors_sample inp m).hum = m.hum) ∧
      (inp.color = none →
        (sensors_sample inp m).red = m.red ∧
        (sensors_sample inp m).green = m.green ∧
        (sensors_sample inp m).blue = m.blue ∧
        (sensors_sample inp m).clear = m.clear) ∧
      (sensors_thread_step NORMAL_MODE inp m).2 = true ∧
      (sensors_thread_step TEST_MODE inp m).2 = true := by
  intro inp m
  refine ⟨rfl, rfl, ?_, ?_, ?_, ?_, ?_, ?_, rfl, rfl⟩
  · intro h
    simp [sensors_sample, read_adc_percentage, h]
  · intro h
    simp [sensors_sample, read_adc_percentage, h]
  · intro h
    simp [sensors_sample, read_accelerometer, h]
  · intro h
    simp [sensors_sample, read_temperature_humidity, h]
  · intro h
    cases hh : inp.humidity <;>
      simp [sensors_sample, read_temperature_humidity, h, hh]
  · intro h
    simp [sensors_sample, read_color_sensor, h]

/-- C6 witness: the all-failing cycle at a concrete snapshot, every
hypothesis of `failed_reads_keep_last_values` discharged at
`sensor_inputs` with every read failed. -/
theorem failed_reads_keep_last_values_witness :
    gps_thread_step NORMAL_MODE none all_ones_measurement = (all_ones_measurement, true) ∧
    (none_inputs.pt_mv = none ∧
      (sensors_sample none_inputs all_ones_measurement).brightness =
        all_ones_measurement.brightness) ∧
    (none_inputs.accel_xyz = none ∧
      (sensors_sample none_inputs all_ones_measurement).accel_x_g =
        all_ones_measurement.accel_x_g) ∧
    (none_inputs.humidity = none ∧
      (sensors_sample none_inputs all_ones_measurement).temp =
        all_ones_measurement.temp) ∧
    (none_inputs.color = none ∧
      (sensors_sample none_inputs all_ones_measurement).red =
        all_ones_measurement.red) ∧
    (sensors_thread_step NORMAL_MODE none_inputs all_ones_measurement).2 = true :=
  ⟨(failed_reads_keep_last_values none_inputs all_ones_measurement).1,
   ⟨rfl, (failed_reads_keep_last_values none_inputs all_ones_measurement).2.2.1 rfl⟩,
   ⟨rfl, ((failed_reads_keep_last_values none_inputs all_ones_measurement).2.2.2.2.1 rfl).1⟩,
   ⟨rfl, ((failed_reads_keep_last_values none_inputs all_ones_measurement).2.2.2.2.2.1 rfl).1⟩,
   ⟨rfl, ((failed_reads_keep_last_values none_inputs all_ones_measurement).2.2.2.2.2.2.2.1 rfl).1⟩,
   (failed_reads_keep_last_values none_inputs all_ones_measurement).2.2.2.2.2.2.2.2.1⟩

/-- C7: dominant-color counting increments exactly the strictly dominant
bucket (none on ties), and the three-read scenario
(100,50,10), (10,200,5), (5,5,300) ends with counts 1, 1, 1. -/
theorem dominant_color_counting :
    (∀ (d : main_measurement) (s : stats_measurements),
      (dominant_color_calculation d s).red_count =
        s.red_count + (if d.r > d.g ∧ d.r > d.b then 1 else 0) ∧
      (dominant_color_calculation d s).green_count =
        s.green_count + (if d.g > d.r ∧ d.g > d.b then 1 else 0) ∧
      (dominant_color_calculation d s).blue_count =
        s.blue_count + (if d.b > d.r ∧ d.b > d.g then 1 else 0) ∧
      (dominant_color_calculation d s).red_count +
          (dominant_color_calculation d s).green_count +
          (dominant_color_calculation d s).blue_count ≤
        s.red_count + s.green_count + s.blue_count + 1) ∧
    ((run_stats [scenario_read_1, scenario_read_2, scenario_read_3]).red_count = 1 ∧
     (run_stats [scenario_read_1, scenario_read_2, scenario_read_3]).green_count = 1 ∧
     (run_stats [scenario_read_1, scenario_read_2, scenario_read_3]).blue_count = 1) := by
  constructor
  · intro d s
    by_cases h1 : d.r > d.g ∧ d.r > d.b
    · have hg : ¬(d.g > d.r ∧ d.g > d.b) := by
        rintro ⟨hgr, -⟩
        exact lt_asymm h1.1 hgr
      have hb : ¬(d.b > d.r ∧ d.b > d.g) := by
        rintro ⟨hbr, -⟩
        exact lt_asymm h1.2 hbr
      refine ⟨?_, ?_, ?_, ?_⟩ <;> simp [dominant_color_calculation, h1, hg, hb] <;> omega
    · by_cases h2 : d.g > d.r ∧ d.g > d.b
      · have hb : ¬(d.b > d.r ∧ d.b > d.g) := by
          rintro ⟨-, hbg⟩
          exact lt_asymm h2.2 hbg
        refine ⟨?_, ?_, ?_, ?_⟩ <;> simp [dominant_color_calculation, h1, h2, hb] <;> omega
      · by_cases h3 : d.b > d.r ∧ d.b > d.g
        · refine ⟨?_, ?_, ?_, ?_⟩ <;> simp [dominant_color_calculation, h1, h2, h3] <;> omega
        · refine ⟨?_, ?_, ?_, ?_⟩ <;> simp [dominant_color_calculation, h1, h2, h3]
  · refine ⟨?_, ?_, ?_⟩ <;> decide

/-- The flagged-color list for flags = {TEMP, ACCEL}. -/
lemma rgb_colors_list_temp_accel :
    rgb_colors_list (FLAG_TEMP ||| FLAG_ACCEL) = [0, 5] := by decide

/-- Index evolution of the RGB timer under constant flags {TEMP, ACCEL}:
after the `n`-th tick the stored `color_index` is `(n + 1) % 256`. -/
lemma rgb_ticks_temp_accel_index :
    ∀ n, (rgb_ticks (FLAG_TEMP ||| FLAG_ACCEL) n).2 = (n + 1) % 256 := by
  intro n
  induction n with
  | zero => decide
  | succ n ih =>
    show (rgb_timer_handler (FLAG_TEMP ||| FLAG_ACCEL)
      (rgb_ticks (FLAG_TEMP ||| FLAG_ACCEL) n).2).2 = (n + 1 + 1) % 256
    rw [ih]
    simp [rgb_timer_handler, rgb_colors_list_temp_accel, Nat.mod_add_mod]

/-- C4: each RGB-timer tick with an empty flag set turns the indicator off
and resets the rotation index; with a non-empty flag set it renders the
flagged color at position `index mod length` and advances the (uint8)
index; and under flags = {TEMP, ACCEL} successive ticks from index 0
alternate RED, YELLOW, RED, YELLOW, …. -/
theorem rgb_round_robin :
    (∀ flags idx, rgb_colors_list flags = [] →
      rgb_timer_handler flags idx = (.off, 0)) ∧
    (∀ flags idx, rgb_colors_list flags ≠ [] →
      (rgb_timer_handler flags idx).1 =
        render_color ((rgb_colors_list flags).getD
          (idx % (rgb_colors_list flags).length) 6) ∧
      (rgb_timer_handler flags idx).2 = (idx + 1) % 256) ∧
    (∀ n, (rgb_ticks (FLAG_TEMP ||| FLAG_ACCEL) n).1 =
      if n % 2 = 0 then rgb_output.red else rgb_output.yellow) := by
  refine ⟨?_, ?_, ?_⟩
  · intro flags idx h
    simp [rgb_timer_handler, h]
  · intro flags idx h
    have hl : (rgb_colors_list flags).length ≠ 0 := by
      simpa [List.length_eq_zero] using h
    have hmod : idx % (rgb_colors_list flags).length <
        (rgb_colors_list flags).length :=
      Nat.mod_lt _ (Nat.pos_of_ne_zero hl)
    constructor
    · simp only [rgb_timer_handler]
      rw [dif_neg hl, List.getD_eq_getElem _ _ hmod]
      simp
    · simp only [rgb_timer_handler]
      rw [dif_neg hl]
  · intro n
    cases n with
    | zero => decide
    | succ n =>
      show (rgb_timer_handler (FLAG_TEMP ||| FLAG_ACCEL)
        (rgb_ticks (FLAG_TEMP ||| FLAG_ACCEL) n).2).1 = _
      rw [rgb_ticks_temp_accel_index n]
      have h2 : ((n + 1) % 256) % 2 = (n + 1) % 2 :=
        Nat.mod_mod_of_dvd _ (by norm_num)
      simp only [rgb_timer_handler, rgb_colors_list_temp_accel]
      rw [dif_neg (by norm_num : ¬([0, 5] : List ℕ).length = 0)]
      rcases Nat.mod_two_eq_zero_or_one (n + 1) with h | h
      · simp [List.get, h2, h, render_color, rgb_colors_list_temp_accel]
      · simp [List.get, h2, h, render_color, rgb_colors_list_temp_accel]

/-- C4 witness: the empty-flag reset, the non-empty selection rule at
flags = {TEMP, ACCEL} with index 5, and the alternation at tick 2,
with every hypothesis discharged concretely. -/
theorem rgb_round_robin_witness :
    rgb_colors_list 0 = [] ∧
    rgb_timer_handler 0 3 = (.off, 0) ∧
    rgb_colors_list (FLAG_TEMP ||| FLAG_ACCEL) ≠ [] ∧
    (rgb_timer_handler (FLAG_TEMP ||| FLAG_ACCEL) 5).1 =
      render_color ((rgb_colors_list (FLAG_TEMP ||| FLAG_ACCEL)).getD
        (5 % (rgb_colors_list (FLAG_TEMP ||| FLAG_ACCEL)).length) 6) ∧
    (rgb_timer_handler (FLAG_TEMP ||| FLAG_ACCEL) 5).2 = 6 % 256 ∧
    (rgb_ticks (FLAG_TEMP ||| FLAG_ACCEL) 2).1 =
      if 2 % 2 = 0 then rgb_output.red else rgb_output.yellow :=
  ⟨by decide,
   rgb_round_robin.1 0 3 (by decide),
   by decide,
   (rgb_round_robin.2.1 (FLAG_TEMP ||| FLAG_ACCEL) 5 (by decide)).1,
   (rgb_round_robin.2.1 (FLAG_TEMP ||| FLAG_ACCEL) 5 (by decide)).2,
   rgb_round_robin.2.2 2⟩

/-- C5 counterexample: the claim says the rotation index resets to 0
whenever the mode leaves NORMAL, but the mode-exit actions of the main
loop (stop `rgb_timer`, LED off) leave the static `color_index`
untouched: leaving NORMAL with index 1 keeps index 1. -/
theorem mode_exit_keeps_rotation_index :
    (advanced_mode_entry
      { rgb_timer_running := true, color_index := 1, output := .red }).color_index ≠ 0 ∧
    (test_mode_entry
      { rgb_timer_running := true, color_index := 1, output := .red }).color_index ≠ 0 := by
  exact ⟨by decide, by decide⟩

/-- C5 (amended): the rotation index persists across cycles and resets to
0 exactly at a tick that reads an empty flag set; leaving NORMAL stops
the indicator timer and turns the LED off but does not reset the
index. -/
theorem rotation_index_reset_rule :
    ∀ (s : indicator_state) (flags : ℕ),
      (rgb_colors_list flags = [] →
        indicator_tick flags s =
          { s with output := .off, color_index := 0 }) ∧
      (rgb_colors_list flags ≠ [] →
        (indicator_tick flags s).color_index = (s.color_index + 1) % 256) ∧
      (advanced_mode_entry s).color_index = s.color_index ∧
      (advanced_mode_entry s).rgb_timer_running = false ∧
      (advanced_mode_entry s).output = .off ∧
      (test_mode_entry s).color_index = s.color_index ∧
      (test_mode_entry s).rgb_timer_running = false ∧
      (test_mode_entry s).output = .off ∧
      (normal_mode_entry s).color_index = s.color_index := by
  intro s flags
  refine ⟨?_, ?_, rfl, rfl, rfl, rfl, rfl, rfl, rfl⟩
  · intro h
    simp [indicator_tick, rgb_timer_handler, h]
  · intro h
    have hl : (rgb_colors_list flags).length ≠ 0 := by
      simpa [List.length_eq_zero] using h
    simp only [indicator_tick, rgb_timer_handler]
    rw [dif_neg hl]

/-- C5 amended-claim witness: both tick hypotheses discharged concretely,
at an empty flag set and at flags = {TEMP, ACCEL}. -/
theorem rotation_index_reset_rule_witness :
    (rgb_colors_list 0 = ([] : List ℕ) ∧
      indicator_tick 0 { rgb_timer_running := true, color_index := 7, output := .red } =
        { rgb_timer_running := true, color_index := 0, output := .off }) ∧
    (rgb_colors_list (FLAG_TEMP ||| FLAG_ACCEL) ≠ [] ∧
      (indicator_tick (FLAG_TEMP ||| FLAG_ACCEL)
        { rgb_timer_running := true, color_index := 7, output := .red }).color_index =
          (7 + 1) % 256) :=
  ⟨⟨by decide,
    (rotation_index_reset_rule
      { rgb_timer_running := true, color_index := 7, output := .red } 0).1 (by decide)⟩,
   ⟨by decide,
    (rotation_index_reset_rule
      { rgb_timer_running := true, color_index := 7, output := .red }
      (FLAG_TEMP ||| FLAG_ACCEL)).2.1 (by decide)⟩⟩

/-- The clamped record returned by `check_limits`, field by field. -/
lemma check_limits_fst (f0 : ℕ) (m : main_measurement) :
    (check_limits f0 m).1 = { m with
      temp := if m.temp < TEMP_MIN then TEMP_MIN
        else if m.temp > TEMP_MAX then TEMP_MAX else m.temp,
      hum := if m.hum < HUM_MIN then HUM_MIN
        else if m.hum > HUM_MAX then HUM_MAX else m.hum,
      light := if m.light < LIGHT_MIN then LIGHT_MIN
        else if m.light > LIGHT_MAX then LIGHT_MAX else m.light,
      moisture := if m.moisture < MOISTURE_MIN then MOISTURE_MIN
        else if m.moisture > MOISTURE_MAX then MOISTURE_MAX else m.moisture,
      c := if m.c < COLOR_MIN then COLOR_MIN
        else if m.c > COLOR_MAX then COLOR_MAX else m.c,
      r := if m.r < COLOR_MIN then COLOR_MIN
        else if m.r > COLOR_MAX then COLOR_MAX else m.r,
      g := if m.g < COLOR_MIN then COLOR_MIN
        else if m.g > COLOR_MAX then COLOR_MAX else m.g,
      b := if m.b < COLOR_MIN then COLOR_MIN
        else if m.b > COLOR_MAX then COLOR_MAX else m.b,
      x_axis := if m.x_axis < ACCEL_MIN * (98/10) then ACCEL_MIN * (98/10)
        else if m.x_axis > ACCEL_MAX * (98/10) then ACCEL_MAX * (98/10) else m.x_axis,
      y_axis := if m.y_axis < ACCEL_MIN * (98/10) then ACCEL_MIN * (98/10)
        else if m.y_axis > ACCEL_MAX * (98/10) then ACCEL_MAX * (98/10) else m.y_axis,
      z_axis := if m.z_axis < ACCEL_MIN * (98/10) then ACCEL_MIN * (98/10)
        else if m.z_axis > ACCEL_MAX * (98/10) then ACCEL_MAX * (98/10) else m.z_axis } := by
  simp only [check_limits, check_limit_fst]

/-- Clamping lands in the interval whenever the bounds are ordered. -/
lemma clamp_bounds (v mn mx : ℚ) (h : mn ≤ mx) :
    mn ≤ (if v < mn then mn else if v > mx then mx else v) ∧
      (if v < mn then mn else if v > mx then mx else v) ≤ mx := by
  rw [← check_limit_fst v mn mx 0 0]
  exact check_limit_bounds v mn mx 0 0 h

/-- The temperature-scenario input: a NORMAL-mode reading of 60 °C with
every other field inside its range. -/
def scenario_temp_60 : main_measurement :=
  { scenario_read_1 with temp := 60 }

/-- C3: `check_limits` recomputes the flag word from scratch (its result
does not depend on the incoming word), clamps every displayed value into
its fixed bounds, and sets each family's bit exactly when a raw value of
that family was out of range — the four color channels sharing one bit
and the three axes sharing one bit; the 60 °C scenario clamps to 50 with
exactly the TEMP bit set. -/
theorem alert_flags_exact :
    ∀ (f1 f2 : ℕ) (m : main_measurement),
      check_limits f1 m = check_limits f2 m ∧
      (TEMP_MIN ≤ (check_limits 0 m).1.temp ∧ (check_limits 0 m).1.temp ≤ TEMP_MAX) ∧
      (HUM_MIN ≤ (check_limits 0 m).1.hum ∧ (check_limits 0 m).1.hum ≤ HUM_MAX) ∧
      (LIGHT_MIN ≤ (check_limits 0 m).1.light ∧ (check_limits 0 m).1.light ≤ LIGHT_MAX) ∧
      (MOISTURE_MIN ≤ (check_limits 0 m).1.moisture ∧
        (check_limits 0 m).1.moisture ≤ MOISTURE_MAX) ∧
      (COLOR_MIN ≤ (check_limits 0 m).1.c ∧ (check_limits 0 m).1.c ≤ COLOR_MAX) ∧
      (COLOR_MIN ≤ (check_limits 0 m).1.r ∧ (check_limits 0 m).1.r ≤ COLOR_MAX) ∧
      (COLOR_MIN ≤ (check_limits 0 m).1.g ∧ (check_limits 0 m).1.g ≤ COLOR_MAX) ∧
      (COLOR_MIN ≤ (check_limits 0 m).1.b ∧ (check_limits 0 m).1.b ≤ COLOR_MAX) ∧
      (ACCEL_MIN * (98/10) ≤ (check_limits 0 m).1.x_axis ∧
        (check_limits 0 m).1.x_axis ≤ ACCEL_MAX * (98/10)) ∧
      (ACCEL_MIN * (98/10) ≤ (check_limits 0 m).1.y_axis ∧
        (check_limits 0 m).1.y_axis ≤ ACCEL_MAX * (98/10)) ∧
      (ACCEL_MIN * (98/10) ≤ (check_limits 0 m).1.z_axis ∧
        (check_limits 0 m).1.z_axis ≤ ACCEL_MAX * (98/10)) ∧
      (((check_limits 0 m).2.testBit 0 = true) ↔
        (m.temp < TEMP_MIN ∨ m.temp > TEMP_MAX)) ∧
      (((check_limits 0 m).2.testBit 1 = true) ↔
        (m.hum < HUM_MIN ∨ m.hum > HUM_MAX)) ∧
      (((check_limits 0 m).2.testBit 2 = true) ↔
        (m.light < LIGHT_MIN ∨ m.light > LIGHT_MAX)) ∧
      (((check_limits 0 m).2.testBit 3 = true) ↔
        (m.moisture < MOISTURE_MIN ∨ m.moisture > MOISTURE_MAX)) ∧
      (((check_limits 0 m).2.testBit 4 = true) ↔
        ((m.c < COLOR_MIN ∨ m.c > COLOR_MAX) ∨ (m.r < COLOR_MIN ∨ m.r > COLOR_MAX) ∨
         (m.g < COLOR_MIN ∨ m.g > COLOR_MAX) ∨ (m.b < COLOR_MIN ∨ m.b > COLOR_MAX))) ∧
      (((check_limits 0 m).2.testBit 5 = true) ↔
        ((m.x_axis < ACCEL_MIN * (98/10) ∨ m.x_axis > ACCEL_MAX * (98/10)) ∨
         (m.y_axis < ACCEL_MIN * (98/10) ∨ m.y_axis > ACCEL_MAX * (98/10)) ∨
         (m.z_axis < ACCEL_MIN * (98/10) ∨ m.z_axis > ACCEL_MAX * (98/10)))) ∧
      ((check_limits 0 scenario_temp_60).1.temp = 50 ∧
        (check_limits 0 scenario_temp_60).2 = FLAG_TEMP) := by
  intro f1 f2 m
  refine ⟨rfl, ?_, ?_, ?_, ?_, ?_, ?_, ?_, ?_, ?_, ?_, ?_, ?_, ?_, ?_, ?_, ?_, ?_, ?_⟩
  · rw [check_limits_fst]
    exact clamp_bounds m.temp TEMP_MIN TEMP_MAX (by norm_num [TEMP_MIN, TEMP_MAX])
  · rw [check_limits_fst]
    exact clamp_bounds m.hum HUM_MIN HUM_MAX (by norm_num [HUM_MIN, HUM_MAX])
  · rw [check_limits_fst]
    exact clamp_bounds m.light LIGHT_MIN LIGHT_MAX (by norm_num [LIGHT_MIN, LIGHT_MAX])
  · rw [check_limits_fst]
    exact clamp_bounds m.moisture MOISTURE_MIN MOISTURE_MAX
      (by norm_num [MOISTURE_MIN, MOISTURE_MAX])
  · rw [check_limits_fst]
    exact clamp_bounds m.c COLOR_MIN COLOR_MAX (by norm_num [COLOR_MIN, COLOR_MAX])
  · rw [check_limits_fst]
    exact clamp_bounds m.r COLOR_MIN COLOR_MAX (by norm_num [COLOR_MIN, COLOR_MAX])
  · rw [check_limits_fst]
    exact clamp_bounds m.g COLOR_MIN COLOR_MAX (by norm_num [COLOR_MIN, COLOR_MAX])
  · rw [check_limits_fst]
    exact clamp_bounds m.b COLOR_MIN COLOR_MAX (by norm_num [COLOR_MIN, COLOR_MAX])
  · rw [check_limits_fst]
    exact clamp_bounds m.x_axis _ _ (by norm_num [ACCEL_MIN, ACCEL_MAX])
  · rw [check_limits_fst]
    exact clamp_bounds m.y_axis _ _ (by norm_num [ACCEL_MIN, ACCEL_MAX])
  · rw [check_limits_fst]
    exact clamp_bounds m.z_axis _ _ (by norm_num [ACCEL_MIN, ACCEL_MAX])
  · simp only [check_limits, check_limit_snd, Nat.testBit_lor, testBit_ite,
      Nat.zero_testBit, FLAG_TEMP_pow, FLAG_HUM_pow, FLAG_LIGHT_pow, FLAG_MOISTURE_pow,
      FLAG_COLOR_pow, FLAG_ACCEL_pow, Nat.testBit_two_pow]
    simp
  · simp only [check_limits, check_limit_snd, Nat.testBit_lor, testBit_ite,
      Nat.zero_testBit, FLAG_TEMP_pow, FLAG_HUM_pow, FLAG_LIGHT_pow, FLAG_MOISTURE_pow,
      FLAG_COLOR_pow, FLAG_ACCEL_pow, Nat.testBit_two_pow]
    simp
  · simp only [check_limits, check_limit_snd, Nat.testBit_lor, testBit_ite,
      Nat.zero_testBit, FLAG_TEMP_pow, FLAG_HUM_pow, FLAG_LIGHT_pow, FLAG_MOISTURE_pow,
      FLAG_COLOR_pow, FLAG_ACCEL_pow, Nat.testBit_two_pow]
    simp
  · simp only [check_limits, check_limit_snd, Nat.testBit_lor, testBit_ite,
      Nat.zero_testBit, FLAG_TEMP_pow, FLAG_HUM_pow, FLAG_LIGHT_pow, FLAG_MOISTURE_pow,
      FLAG_COLOR_pow, FLAG_ACCEL_pow, Nat.testBit_two_pow]
    simp
  · simp only [check_limits, check_limit_snd, Nat.testBit_lor, testBit_ite,
      Nat.zero_testBit, FLAG_TEMP_pow, FLAG_HUM_pow, FLAG_LIGHT_pow, FLAG_MOISTURE_pow,
      FLAG_COLOR_pow, FLAG_ACCEL_pow, Nat.testBit_two_pow]
    simp
    tauto
  · simp only [check_limits, check_limit_snd, Nat.testBit_lor, testBit_ite,
      Nat.zero_testBit, FLAG_TEMP_pow, FLAG_HUM_pow, FLAG_LIGHT_pow, FLAG_MOISTURE_pow,
      FLAG_COLOR_pow, FLAG_ACCEL_pow, Nat.testBit_two_pow]
    simp
    tauto
  · constructor
    · decide
    · simp only [check_limits, check_limit_snd]
      norm_num [scenario_temp_60, scenario_read_1, TEMP_MIN, TEMP_MAX, HUM_MIN,
        HUM_MAX, LIGHT_MIN, LIGHT_MAX, MOISTURE_MIN, MOISTURE_MAX, COLOR_MIN,
        COLOR_MAX, ACCEL_MIN, ACCEL_MAX, FLAG_TEMP]

/-- C9: in the NORMAL-mode cycle the limit check runs before the
statistics update, so the statistics consume the clamped record, and
every metric value entering the accumulator is inside its configured
bounds. -/
theorem stats_consume_clamped_values :
    ∀ (m : main_measurement) (s : stats_measurements),
      (normal_mode_cycle m s).2.2 = stats_management (check_limits 0 m).1 s ∧
      (TEMP_MIN ≤ (check_limits 0 m).1.temp ∧ (check_limits 0 m).1.temp ≤ TEMP_MAX) ∧
      (HUM_MIN ≤ (check_limits 0 m).1.hum ∧ (check_limits 0 m).1.hum ≤ HUM_MAX) ∧
      (LIGHT_MIN ≤ (check_limits 0 m).1.light ∧ (check_limits 0 m).1.light ≤ LIGHT_MAX) ∧
      (MOISTURE_MIN ≤ (check_limits 0 m).1.moisture ∧
        (check_limits 0 m).1.moisture ≤ MOISTURE_MAX) ∧
      (ACCEL_MIN * (98/10) ≤ (check_limits 0 m).1.x_axis ∧
        (check_limits 0 m).1.x_axis ≤ ACCEL_MAX * (98/10)) ∧
      (ACCEL_MIN * (98/10) ≤ (check_limits 0 m).1.y_axis ∧
        (check_limits 0 m).1.y_axis ≤ ACCEL_MAX * (98/10)) ∧
      (ACCEL_MIN * (98/10) ≤ (check_limits 0 m).1.z_axis ∧
        (check_limits 0 m).1.z_axis ≤ ACCEL_MAX * (98/10)) := by
  intro m s
  refine ⟨rfl, ?_, ?_, ?_, ?_, ?_, ?_, ?_⟩
  · rw [check_limits_fst]
    exact clamp_bounds m.temp TEMP_MIN TEMP_MAX (by norm_num [TEMP_MIN, TEMP_MAX])
  · rw [check_limits_fst]
    exact clamp_bounds m.hum HUM_MIN HUM_MAX (by norm_num [HUM_MIN, HUM_MAX])
  · rw [check_limits_fst]
    exact clamp_bounds m.light LIGHT_MIN LIGHT_MAX (by norm_num [LIGHT_MIN, LIGHT_MAX])
  · rw [check_limits_fst]
    exact clamp_bounds m.moisture MOISTURE_MIN MOISTURE_MAX
      (by norm_num [MOISTURE_MIN, MOISTURE_MAX])
  · rw [check_limits_fst]
    exact clamp_bounds m.x_axis _ _ (by norm_num [ACCEL_MIN, ACCEL_MAX])
  · rw [check_limits_fst]
    exact clamp_bounds m.y_axis _ _ (by norm_num [ACCEL_MIN, ACCEL_MAX])
  · rw [check_limits_fst]
    exact clamp_bounds m.z_axis _ _ (by norm_num [ACCEL_MIN, ACCEL_MAX])

/-! Infrastructure for the statistics claims: the running-accumulator
invariant and per-field projections of `stats_management`. -/

/-- `a` is the maximum of the list `l`. -/
def IsMaxOf (a : ℚ) (l : List ℚ) : Prop := a ∈ l ∧ ∀ x ∈ l, x ≤ a

/-- `a` is the minimum of the list `l`. -/
def IsMinOf (a : ℚ) (l : List ℚ) : Prop := a ∈ l ∧ ∀ x ∈ l, a ≤ x

/-- One comparison step of `max_min_calculation` extends a list maximum. -/
lemma isMaxOf_snoc (a x : ℚ) (l : List ℚ) (h : IsMaxOf a l) :
    IsMaxOf (if x > a then x else a) (l ++ [x]) := by
  obtain ⟨hmem, hub⟩ := h
  by_cases hx : x > a
  · rw [if_pos hx]
    refine ⟨List.mem_append.mpr (Or.inr (by simp)), ?_⟩
    intro y hy
    rcases List.mem_append.mp hy with hy | hy
    · exact le_of_lt (lt_of_le_of_lt (hub y hy) hx)
    · simp at hy
      exact hy.le
  · rw [if_neg hx]
    refine ⟨List.mem_append.mpr (Or.inl hmem), ?_⟩
    intro y hy
    rcases List.mem_append.mp hy with hy | hy
    · exact hub y hy
    · simp at hy
      rw [hy]
      exact not_lt.mp hx

/-- One comparison step of `max_min_calculation` extends a list minimum. -/
lemma isMinOf_snoc (a x : ℚ) (l : List ℚ) (h : IsMinOf a l) :
    IsMinOf (if x < a then x else a) (l ++ [x]) := by
  obtain ⟨hmem, hlb⟩ := h
  by_cases hx : x < a
  · rw [if_pos hx]
    refine ⟨List.mem_append.mpr (Or.inr (by simp)), ?_⟩
    intro y hy
    rcases List.mem_append.mp hy with hy | hy
    · exact le_of_lt (lt_of_lt_of_le hx (hlb y hy))
    · simp at hy
      exact hy.ge
  · rw [if_neg hx]
    refine ⟨List.mem_append.mpr (Or.inl hmem), ?_⟩
    intro y hy
    rcases List.mem_append.mp hy with hy | hy
    · exact hlb y hy
    · simp at hy
      rw [hy]
      exact not_lt.mp hx

/-- The incremental-mean recurrence of `mean_calculation`, multiplied
out: one update keeps `mean × count = sum`. -/
lemma mean_snoc (m x S : ℚ) (n : ℕ) (h : m * (n : ℚ) = S) :
    ((m * (((n + 1 : ℕ) : ℚ) - 1)) + x) / ((n + 1 : ℕ) : ℚ) * ((n + 1 : ℕ) : ℚ)
      = S + x := by
  have hz : (((n + 1 : ℕ) : ℚ)) ≠ 0 := Nat.cast_ne_zero.mpr (Nat.succ_ne_zero n)
  have hcast : (((n + 1 : ℕ) : ℚ) - 1) = (n : ℚ) := by
    push_cast
    ring
  rw [hcast, div_mul_cancel₀ _ hz, h]

/-- `stats_management` increments the sample count by one. -/
lemma stats_management_count (d : main_measurement) (s : stats_measurements) :
    (stats_management d s).count = s.count + 1 := by
  unfold stats_management dominant_color_calculation max_min_calculation mean_calculation
  simp only [apply_ite stats_measurements.count]
  split_ifs <;> rfl

/-- Projection of `stats_management` onto `temp_mean`. -/
lemma stats_management_temp_mean (d : main_measurement) (s : stats_measurements) :
    (stats_management d s).temp_mean =
      if s.count + 1 = 1 then d.temp
      else ((s.temp_mean * (((s.count + 1 : ℕ) : ℚ) - 1)) + d.temp) /
        ((s.count + 1 : ℕ) : ℚ) := by
  unfold stats_management dominant_color_calculation max_min_calculation mean_calculation
  simp only [apply_ite stats_measurements.temp_mean]
  split_ifs <;> rfl

/-- Projection of `stats_management` onto `hum_mean`. -/
lemma stats_management_hum_mean (d : main_measurement) (s : stats_measurements) :
    (stats_management d s).hum_mean =
      if s.count + 1 = 1 then d.hum
      else ((s.hum_mean * (((s.count + 1 : ℕ) : ℚ) - 1)) + d.hum) /
        ((s.count + 1 : ℕ) : ℚ) := by
  unfold stats_management dominant_color_calculation max_min_calculation mean_calculation
  simp only [apply_ite stats_measurements.hum_mean]
  split_ifs <;> rfl

/-- Projection of `stats_management` onto `light_mean`. -/
lemma stats_management_light_mean (d : main_measurement) (s : stats_measurements) :
    (stats_management d s).light_mean =
      if s.count + 1 = 1 then d.light
      else ((s.light_mean * (((s.count + 1 : ℕ) : ℚ) - 1)) + d.light) /
        ((s.count + 1 : ℕ) : ℚ) := by
  unfold stats_management dominant_color_calculation max_min_calculation mean_calculation
  simp only [apply_ite stats_measurements.light_mean]
  split_ifs <;> rfl

/-- Projection of `stats_management` onto `moisture_mean`. -/
lemma stats_management_moisture_mean (d : main_measurement) (s : stats_measurements) :
    (stats_management d s).moisture_mean =
      if s.count + 1 = 1 then d.moisture
      else ((s.moisture_mean * (((s.count + 1 : ℕ) : ℚ) - 1)) + d.moisture) /
        ((s.count + 1 : ℕ) : ℚ) := by
  unfold stats_management dominant_color_calculation max_min_calculation mean_calculation
  simp only [apply_ite stats_measurements.moisture_mean]
  split_ifs <;> rfl

/-- Projection of `stats_management` onto `temp_max`. -/
lemma stats_management_temp_max (d : main_measurement) (s : stats_measurements) :
    (stats_management d s).temp_max =
      if s.count + 1 = 1 then d.temp
      else if d.temp > s.temp_max then d.temp else s.temp_max := by
  unfold stats_management dominant_color_calculation max_min_calculation mean_calculation
  simp only [apply_ite stats_measurements.temp_max]
  split_ifs <;> rfl

/-- Projection of `stats_management` onto `temp_min`. -/
lemma stats_management_temp_min (d : main_measurement) (s : stats_measurements) :
    (stats_management d s).temp_min =
      if s.count + 1 = 1 then d.temp
      else if d.temp < s.temp_min then d.temp else s.temp_min := by
  unfold stats_management dominant_color_calculation max_min_calculation mean_calculation
  simp only [apply_ite stats_measurements.temp_min]
  split_ifs <;> rfl

/-- Projection of `stats_management` onto `hum_max`. -/
lemma stats_management_hum_max (d : main_measurement) (s : stats_measurements) :
    (stats_management d s).hum_max =
      if s.count + 1 = 1 then d.hum
      else if d.hum > s.hum_max then d.hum else s.hum_max := by
  unfold stats_management dominant_color_calculation max_min_calculation mean_calculation
  simp only [apply_ite stats_measurements.hum_max]
  split_ifs <;> rfl

/-- Projection of `stats_management` onto `hum_min`. -/
lemma stats_management_hum_min (d : main_measurement) (s : stats_measurements) :
    (stats_management d s).hum_min =
      if s.count + 1 = 1 then d.hum
      else if d.hum < s.hum_min then d.hum else s.hum_min := by
  unfold stats_management dominant_color_calculation max_min_calculation mean_calculation
  simp only [apply_ite stats_measurements.hum_min]
  split_ifs <;> rfl

/-- Projection of `stats_management` onto `light_max`. -/
lemma stats_management_light_max (d : main_measurement) (s : stats_measurements) :
    (stats_management d s).light_max =
      if s.count + 1 = 1 then d.light
      else if d.light > s.light_max then d.light else s.light_max := by
  unfold stats_management dominant_color_calculation max_min_calculation mean_calculation
  simp only [apply_ite stats_measurements.light_max]
  split_ifs <;> rfl

/-- Projection of `stats_management` onto `light_min`. -/
lemma stats_management_light_min (d : main_measurement) (s : stats_measurements) :
    (stats_management d s).light_min =
      if s.count + 1 = 1 then d.light
      else if d.light < s.light_min then d.light else s.light_min := by
  unfold stats_management dominant_color_calculation max_min_calculation mean_calculation
  simp only [apply_ite stats_measurements.light_min]
  split_ifs <;> rfl

/-- Projection of `stats_management` onto `moisture_max`. -/
lemma stats_management_moisture_max (d : main_measurement) (s : stats_measurements) :
    (stats_management d s).moisture_max =
      if s.count + 1 = 1 then d.moisture
      else if d.moisture > s.moisture_max then d.moisture else s.moisture_max := by
  unfold stats_management dominant_color_calculation max_min_calculation mean_calculation
  simp only [apply_ite stats_measurements.moisture_max]
  split_ifs <;> rfl

/-- Projection of `stats_management` onto `moisture_min`. -/
lemma stats_management_moisture_min (d : main_measurement) (s : stats_measurements) :
    (stats_management d s).moisture_min =
      if s.count + 1 = 1 then d.moisture
      else if d.moisture < s.moisture_min then d.moisture else s.moisture_min := by
  unfold stats_management dominant_color_calculation max_min_calculation mean_calculation
  simp only [apply_ite stats_measurements.moisture_min]
  split_ifs <;> rfl

/-- Projection of `stats_management` onto `x_axis_max`. -/
lemma stats_management_x_axis_max (d : main_measurement) (s : stats_measurements) :
    (stats_management d s).x_axis_max =
      if s.count + 1 = 1 then d.x_axis
      else if d.x_axis > s.x_axis_max then d.x_axis else s.x_axis_max := by
  unfold stats_management dominant_color_calculation max_min_calculation mean_calculation
  simp only [apply_ite stats_measurements.x_axis_max]
  split_ifs <;> rfl

/-- Projection of `stats_management` onto `x_axis_min`. -/
lemma stats_management_x_axis_min (d : main_measurement) (s : stats_measurements) :
    (stats_management d s).x_axis_min =
      if s.count + 1 = 1 then d.x_axis
      else if d.x_axis < s.x_axis_min then d.x_axis else s.x_axis_min := by
  unfold stats_management dominant_color_calculation max_min_calculation mean_calculation
  simp only [apply_ite stats_measurements.x_axis_min]
  split_ifs <;> rfl

/-- Projection of `stats_management` onto `y_axis_max`. -/
lemma stats_management_y_axis_max (d : main_measurement) (s : stats_measurements) :
    (stats_management d s).y_axis_max =
      if s.count + 1 = 1 then d.y_axis
      else if d.y_axis > s.y_axis_max then d.y_axis else s.y_axis_max := by
  unfold stats_management dominant_color_calculation max_min_calculation mean_calculation
  simp only [apply_ite stats_measurements.y_axis_max]
  split_ifs <;> rfl

/-- Projection of `stats_management` onto `y_axis_min`. -/
lemma stats_management_y_axis_min (d : main_measurement) (s : stats_measurements) :
    (stats_management d s).y_axis_min =
      if s.count + 1 = 1 then d.y_axis
      else if d.y_axis < s.y_axis_min then d.y_axis else s.y_axis_min := by
  unfold stats_management dominant_color_calculation max_min_calculation mean_calculation
  simp only [apply_ite stats_measurements.y_axis_min]
  split_ifs <;> rfl

/-- Projection of `stats_management` onto `z_axis_max`. -/
lemma stats_management_z_axis_max (d : main_measurement) (s : stats_measurements) :
    (stats_management d s).z_axis_max =
      if s.count + 1 = 1 then d.z_axis
      else if d.z_axis > s.z_axis_max then d.z_axis else s.z_axis_max := by
  unfold stats_management dominant_color_calculation max_min_calculation mean_calculation
  simp only [apply_ite stats_measurements.z_axis_max]
  split_ifs <;> rfl

/-- Projection of `stats_management` onto `z_axis_min`. -/
lemma stats_management_z_axis_min (d : main_measurement) (s : stats_measurements) :
    (stats_management d s).z_axis_min =
      if s.count + 1 = 1 then d.z_axis
      else if d.z_axis < s.z_axis_min then d.z_axis else s.z_axis_min := by
  unfold stats_management dominant_color_calculation max_min_calculation mean_calculation
  simp only [apply_ite stats_measurements.z_axis_min]
  split_ifs <;> rfl

/-- The accumulator invariant after the cycles `ps`: each running mean
times the count equals the metric's sum, and each running max/min is
the maximum/minimum of the metric's values. -/
def stats_inv (s : stats_measurements) (ps : List main_measurement) : Prop :=
  s.temp_mean * ((ps.length : ℕ) : ℚ) = (ps.map (fun d => d.temp)).sum ∧
  s.hum_mean * ((ps.length : ℕ) : ℚ) = (ps.map (fun d => d.hum)).sum ∧
  s.light_mean * ((ps.length : ℕ) : ℚ) = (ps.map (fun d => d.light)).sum ∧
  s.moisture_mean * ((ps.length : ℕ) : ℚ) = (ps.map (fun d => d.moisture)).sum ∧
  IsMaxOf s.temp_max (ps.map (fun d => d.temp)) ∧
  IsMinOf s.temp_min (ps.map (fun d => d.temp)) ∧
  IsMaxOf s.hum_max (ps.map (fun d => d.hum)) ∧
  IsMinOf s.hum_min (ps.map (fun d => d.hum)) ∧
  IsMaxOf s.light_max (ps.map (fun d => d.light)) ∧
  IsMinOf s.light_min (ps.map (fun d => d.light)) ∧
  IsMaxOf s.moisture_max (ps.map (fun d => d.moisture)) ∧
  IsMinOf s.moisture_min (ps.map (fun d => d.moisture)) ∧
  IsMaxOf s.x_axis_max (ps.map (fun d => d.x_axis)) ∧
  IsMinOf s.x_axis_min (ps.map (fun d => d.x_axis)) ∧
  IsMaxOf s.y_axis_max (ps.map (fun d => d.y_axis)) ∧
  IsMinOf s.y_axis_min (ps.map (fun d => d.y_axis)) ∧
  IsMaxOf s.z_axis_max (ps.map (fun d => d.z_axis)) ∧
  IsMinOf s.z_axis_min (ps.map (fun d => d.z_axis))

/-- One `stats_management` step preserves the accumulator invariant. -/
lemma stats_management_inv_step (d : main_measurement) (s : stats_measurements)
    (ps : List main_measurement) (hc : s.count = ps.length)
    (hinv : ps ≠ [] → stats_inv s ps) :
    stats_inv (stats_management d s) (ps ++ [d]) := by
  by_cases hps : ps = []
  · subst hps
    simp only [List.length_nil] at hc
    have hpos : s.count + 1 = 1 := by omega
    refine ⟨?_, ?_, ?_, ?_, ?_, ?_, ?_, ?_, ?_, ?_, ?_, ?_, ?_, ?_, ?_, ?_, ?_, ?_⟩ <;>
      simp [stats_management_temp_mean, stats_management_hum_mean, stats_management_light_mean, stats_management_moisture_mean, stats_management_temp_max, stats_management_temp_min, stats_management_hum_max, stats_management_hum_min, stats_management_light_max, stats_management_light_min, stats_management_moisture_max, stats_management_moisture_min, stats_management_x_axis_max, stats_management_x_axis_min, stats_management_y_axis_max, stats_management_y_axis_min, stats_management_z_axis_max, stats_management_z_axis_min, hpos, IsMaxOf, IsMinOf]
  · have hlen : ps.length ≠ 0 := fun hcon => hps (List.length_eq_zero.mp hcon)
    have hne : ¬(s.count + 1 = 1) := by omega
    obtain ⟨h1, h2, h3, h4, h5, h6, h7, h8, h9, h10, h11, h12, h13, h14, h15, h16, h17, h18⟩ := hinv hps
    refine ⟨?_, ?_, ?_, ?_, ?_, ?_, ?_, ?_, ?_, ?_, ?_, ?_, ?_, ?_, ?_, ?_, ?_, ?_⟩
    · rw [stats_management_temp_mean, if_neg hne]
      simp only [List.map_append, List.sum_append, List.length_append, List.map_cons,
        List.map_nil, List.sum_cons, List.sum_nil, add_zero, List.length_cons,
        List.length_nil, zero_add]
      rw [← hc] at h1 ⊢
      exact mean_snoc _ _ _ _ h1
    · rw [stats_management_hum_mean, if_neg hne]
      simp only [List.map_append, List.sum_append, List.length_append, List.map_cons,
        List.map_nil, List.sum_cons, List.sum_nil, add_zero, List.length_cons,
        List.length_nil, zero_add]
      rw [← hc] at h2 ⊢
      exact mean_snoc _ _ _ _ h2
    · rw [stats_management_light_mean, if_neg hne]
      simp only [List.map_append, List.sum_append, List.length_append, List.map_cons,
        List.map_nil, List.sum_cons, List.sum_nil, add_zero, List.length_cons,
        List.length_nil, zero_add]
      rw [← hc] at h3 ⊢
      exact mean_snoc _ _ _ _ h3
    · rw [stats_management_moisture_mean, if_neg hne]
      simp only [List.map_append, List.sum_append, List.length_append, List.map_cons,
        List.map_nil, List.sum_cons, List.sum_nil, add_zero, List.length_cons,
        List.length_nil, zero_add]
      rw [← hc] at h4 ⊢
      exact mean_snoc _ _ _ _ h4
    · rw [stats_management_temp_max, if_neg hne]
      simp only [List.map_append, List.map_cons, List.map_nil]
      exact isMaxOf_snoc _ _ _ h5
    · rw [stats_management_temp_min, if_neg hne]
      simp only [List.map_append, List.map_cons, List.map_nil]
      exact isMinOf_snoc _ _ _ h6
    · rw [stats_management_hum_max, if_neg hne]
      simp only [List.map_append, List.map_cons, List.map_nil]
      exact isMaxOf_snoc _ _ _ h7
    · rw [stats_management_hum_min, if_neg hne]
      simp only [List.map_append, List.map_cons, List.map_nil]
      exact isMinOf_snoc _ _ _ h8
    · rw [stats_management_light_max, if_neg hne]
      simp only [List.map_append, List.map_cons, List.map_nil]
      exact isMaxOf_snoc _ _ _ h9
    · rw [stats_management_light_min, if_neg hne]
      simp only [List.map_append, List.map_cons, List.map_nil]
      exact isMinOf_snoc _ _ _ h10
    · rw [stats_management_moisture_max, if_neg hne]
      simp only [List.map_append, List.map_cons, List.map_nil]
      exact isMaxOf_snoc _ _ _ h11
    · rw [stats_management_moisture_min, if_neg hne]
      simp only [List.map_append, List.map_cons, List.map_nil]
      exact isMinOf_snoc _ _ _ h12
    · rw [stats_management_x_axis_max, if_neg hne]
      simp only [List.map_append, List.map_cons, List.map_nil]
      exact isMaxOf_snoc _ _ _ h13
    · rw [stats_management_x_axis_min, if_neg hne]
      simp only [List.map_append, List.map_cons, List.map_nil]
      exact isMinOf_snoc _ _ _ h14
    · rw [stats_management_y_axis_max, if_neg hne]
      simp only [List.map_append, List.map_cons, List.map_nil]
      exact isMaxOf_snoc _ _ _ h15
    · rw [stats_management_y_axis_min, if_neg hne]
      simp only [List.map_append, List.map_cons, List.map_nil]
      exact isMinOf_snoc _ _ _ h16
    · rw [stats_management_z_axis_max, if_neg hne]
      simp only [List.map_append, List.map_cons, List.map_nil]
      exact isMaxOf_snoc _ _ _ h17
    · rw [stats_management_z_axis_min, if_neg hne]
      simp only [List.map_append, List.map_cons, List.map_nil]
      exact isMinOf_snoc _ _ _ h18


/-- Folding `stats_management` from an invariant-satisfying state keeps
the count and the accumulator invariant. -/
lemma run_stats_inv :
    ∀ (vs ps : List main_measurement) (s : stats_measurements),
      s.count = ps.length → (ps ≠ [] → stats_inv s ps) →
      (List.foldl (fun s d => stats_management d s) s vs).count = (ps ++ vs).length ∧
      (ps ++ vs ≠ [] →
        stats_inv (List.foldl (fun s d => stats_management d s) s vs) (ps ++ vs)) := by
  intro vs
  induction vs with
  | nil =>
    intro ps s hc hinv
    simp only [List.foldl_nil, List.append_nil]
    exact ⟨hc, hinv⟩
  | cons d vs ih =>
    intro ps s hc hinv
    have hstep := stats_management_inv_step d s ps hc hinv
    have hc2 : (stats_management d s).count = (ps ++ [d]).length := by
      rw [stats_management_count, hc]
      simp
    have hmain := ih (ps ++ [d]) (stats_management d s) hc2 (fun _ => hstep)
    simp only [List.foldl_cons]
    have hassoc : ps ++ d :: vs = (ps ++ [d]) ++ vs := by simp
    rw [hassoc]
    exact hmain

/-- C2: over any non-empty sequence of NORMAL-mode cycles the running
means equal the arithmetic means of the delivered values, and the
running maxima and minima equal the true maxima and minima (initialized
from the first sample, never a sentinel). -/
theorem statistics_mean_max_min_correct :
    ∀ vs : List main_measurement, vs ≠ [] →
      (run_stats vs).count = vs.length ∧
      (run_stats vs).temp_mean = (vs.map (fun d => d.temp)).sum / ((vs.length : ℕ) : ℚ) ∧
      (run_stats vs).hum_mean = (vs.map (fun d => d.hum)).sum / ((vs.length : ℕ) : ℚ) ∧
      (run_stats vs).light_mean = (vs.map (fun d => d.light)).sum / ((vs.length : ℕ) : ℚ) ∧
      (run_stats vs).moisture_mean = (vs.map (fun d => d.moisture)).sum / ((vs.length : ℕ) : ℚ) ∧
      IsMaxOf (run_stats vs).temp_max (vs.map (fun d => d.temp)) ∧
      IsMinOf (run_stats vs).temp_min (vs.map (fun d => d.temp)) ∧
      IsMaxOf (run_stats vs).hum_max (vs.map (fun d => d.hum)) ∧
      IsMinOf (run_stats vs).hum_min (vs.map (fun d => d.hum)) ∧
      IsMaxOf (run_stats vs).light_max (vs.map (fun d => d.light)) ∧
      IsMinOf (run_stats vs).light_min (vs.map (fun d => d.light)) ∧
      IsMaxOf (run_stats vs).moisture_max (vs.map (fun d => d.moisture)) ∧
      IsMinOf (run_stats vs).moisture_min (vs.map (fun d => d.moisture)) ∧
      IsMaxOf (run_stats vs).x_axis_max (vs.map (fun d => d.x_axis)) ∧
      IsMinOf (run_stats vs).x_axis_min (vs.map (fun d => d.x_axis)) ∧
      IsMaxOf (run_stats vs).y_axis_max (vs.map (fun d => d.y_axis)) ∧
      IsMinOf (run_stats vs).y_axis_min (vs.map (fun d => d.y_axis)) ∧
      IsMaxOf (run_stats vs).z_axis_max (vs.map (fun d => d.z_axis)) ∧
      IsMinOf (run_stats vs).z_axis_min (vs.map (fun d => d.z_axis)) := by
  intro vs hvs
  obtain ⟨hcnt, hinv⟩ :=
    run_stats_inv vs [] stats_data_zero rfl (fun hcon => absurd rfl hcon)
  rw [List.nil_append] at hcnt hinv
  obtain ⟨h1, h2, h3, h4, h5, h6, h7, h8, h9, h10, h11, h12, h13, h14, h15, h16, h17, h18⟩ := hinv hvs
  have hlz : (((vs.length : ℕ) : ℚ)) ≠ 0 :=
    Nat.cast_ne_zero.mpr (fun hcon => hvs (List.length_eq_zero.mp hcon))
  exact ⟨hcnt, (eq_div_iff hlz).mpr h1, (eq_div_iff hlz).mpr h2, (eq_div_iff hlz).mpr h3, (eq_div_iff hlz).mpr h4, h5, h6, h7, h8, h9, h10, h11, h12, h13, h14, h15, h16, h17, h18⟩

/-- C2 witness: the single-cycle run at `scenario_read_1`, with the
non-emptiness hypothesis discharged concretely. -/
theorem statistics_mean_max_min_correct_witness :
    ([scenario_read_1] ≠ ([] : List main_measurement)) ∧
    ((run_stats [scenario_read_1]).count = [scenario_read_1].length ∧
      (run_stats [scenario_read_1]).temp_mean = ([scenario_read_1].map (fun d => d.temp)).sum / (([scenario_read_1].length : ℕ) : ℚ) ∧
      (run_stats [scenario_read_1]).hum_mean = ([scenario_read_1].map (fun d => d.hum)).sum / (([scenario_read_1].length : ℕ) : ℚ) ∧
      (run_stats [scenario_read_1]).light_mean = ([scenario_read_1].map (fun d => d.light)).sum / (([scenario_read_1].length : ℕ) : ℚ) ∧
      (run_stats [scenario_read_1]).moisture_mean = ([scenario_read_1].map (fun d => d.moisture)).sum / (([scenario_read_1].length : ℕ) : ℚ) ∧
      IsMaxOf (run_stats [scenario_read_1]).temp_max ([scenario_read_1].map (fun d => d.temp)) ∧
      IsMinOf (run_stats [scenario_read_1]).temp_min ([scenario_read_1].map (fun d => d.temp)) ∧
      IsMaxOf (run_stats [scenario_read_1]).hum_max ([scenario_read_1].map (fun d => d.hum)) ∧
      IsMinOf (run_stats [scenario_read_1]).hum_min ([scenario_read_1].map (fun d => d.hum)) ∧
      IsMaxOf (run_stats [scenario_read_1]).light_max ([scenario_read_1].map (fun d => d.light)) ∧
      IsMinOf (run_stats [scenario_read_1]).light_min ([scenario_read_1].map (fun d => d.light)) ∧
      IsMaxOf (run_stats [scenario_read_1]).moisture_max ([scenario_read_1].map (fun d => d.moisture)) ∧
      IsMinOf (run_stats [scenario_read_1]).moisture_min ([scenario_read_1].map (fun d => d.moisture)) ∧
      IsMaxOf (run_stats [scenario_read_1]).x_axis_max ([scenario_read_1].map (fun d => d.x_axis)) ∧
      IsMinOf (run_stats [scenario_read_1]).x_axis_min ([scenario_read_1].map (fun d => d.x_axis)) ∧
      IsMaxOf (run_stats [scenario_read_1]).y_axis_max ([scenario_read_1].map (fun d => d.y_axis)) ∧
      IsMinOf (run_stats [scenario_read_1]).y_axis_min ([scenario_read_1].map (fun d => d.y_axis)) ∧
      IsMaxOf (run_stats [scenario_read_1]).z_axis_max ([scenario_read_1].map (fun d => d.z_axis)) ∧
      IsMinOf (run_stats [scenario_read_1]).z_axis_min ([scenario_read_1].map (fun d => d.z_axis))) :=
  ⟨by simp, statistics_mean_max_min_correct [scenario_read_1] (by simp)⟩


end PlantMonitor
